import Mathlib

/-!
Shallow embedding of the `python-api-tests-async` repository: the operations
resource schemas (`src/schema/operations.py`), the operations API client
(`src/clients/operations_client.py`), the route table (`src/tools/routes.py`),
the fake-data wrapper (`src/tools/fakers.py`), the status-code assertion
(`src/tools/assertions/base.py`) and the disposable-operation fixture
(`src/fixtures/operations.py`).

External collaborators (httpx, pydantic-core's JSON parser, the `faker`
library, allure, pytest) are modelled by their documented contracts: HTTP
responses are an environment `HttpRequest → Response`, a response body is
carried as its JSON-parse result, and the faker primitives are an oracle
carrying one sampled outcome per primitive together with the range contracts
the library documents (`pyfloat` stays inside `[min_value, max_value]`,
`random_element` picks a position in the given list).
-/

/-- JSON values, as produced by `model_dump(mode='json')` and consumed by
`model_validate`.  Numbers are rationals (covering both JSON integers and
decimal floats); objects are association lists in serialization order. -/
inductive JsonValue where
  | null : JsonValue
  | bool (b : Bool) : JsonValue
  | num (q : ℚ) : JsonValue
  | str (s : String) : JsonValue
  | arr (elems : List JsonValue) : JsonValue
  | obj (fields : List (String × JsonValue)) : JsonValue

/-- The top-level key list of a JSON object (empty for non-objects). -/
def jsonKeys : JsonValue → List String
  | .obj fields => fields.map Prod.fst
  | _ => []

/-- Calendar date, the embedding of Python's `datetime.date`. -/
structure Date where
  year : ℕ
  month : ℕ
  day : ℕ
deriving DecidableEq

def leapYear (y : ℕ) : Bool :=
  (y % 4 == 0 && y % 100 != 0) || y % 400 == 0

def daysInMonth (y m : ℕ) : ℕ :=
  if m == 2 then (if leapYear y then 29 else 28)
  else if m == 4 || m == 6 || m == 9 || m == 11 then 30
  else 31

/-- A real calendar date, as `datetime.date` enforces on construction. -/
def Date.valid (d : Date) : Bool :=
  1 ≤ d.month && d.month ≤ 12 && 1 ≤ d.day && d.day ≤ daysInMonth d.year d.month
    && 1 ≤ d.year && d.year ≤ 9999

def padTo (width : ℕ) (n : ℕ) : String :=
  let s := toString n
  String.mk (List.replicate (width - s.length) '0') ++ s

/-- `date.isoformat()` / the `mode='json'` rendering of a date: `YYYY-MM-DD`. -/
def Date.toIso (d : Date) : String :=
  padTo 4 d.year ++ "-" ++ padTo 2 d.month ++ "-" ++ padTo 2 d.day

/-- Split a character list at every dash, keeping empty groups, as
`str.split('-')` does. -/
def splitDashes : List Char → List (List Char)
  | [] => [[]]
  | c :: rest =>
    let groups := splitDashes rest
    if c = '-' then [] :: groups
    else
      match groups with
      | g :: gs => (c :: g) :: gs
      | [] => [[c]]

/-- The numeric value of a non-empty all-digit character group. -/
def digitsAux : List Char → ℕ → Option ℕ
  | [], acc => some acc
  | c :: rest, acc =>
      if c.isDigit then digitsAux rest (10 * acc + (c.toNat - 48)) else none

/-- The numeric value of a non-empty all-digit character group. -/
def digitsToNat : List Char → Option ℕ
  | [] => none
  | cs => digitsAux cs 0

/-- Parse an ISO `YYYY-MM-DD` string into a valid calendar date, as pydantic
does when validating a `date`-typed field from JSON.  Rejects anything that is
not three dash-separated all-digit groups of widths 4-2-2 naming a real date. -/
def parseIsoDate (s : String) : Option Date :=
  match splitDashes s.toList with
  | [ys, ms, ds] =>
    if ys.length == 4 && ms.length == 2 && ds.length == 2 then
      match digitsToNat ys, digitsToNat ms, digitsToNat ds with
      | some y, some m, some d =>
        let date : Date := ⟨y, m, d⟩
        if date.valid then some date else none
      | _, _, _ => none
    else none
  | _ => none

/-- A non-null value of the `float | str | None` union used by the `debit` and
`credit` fields. -/
inductive MoneyValue where
  | num (q : ℚ) : MoneyValue
  | str (s : String) : MoneyValue
deriving DecidableEq

def MoneyValue.toJson : MoneyValue → JsonValue
  | .num q => .num q
  | .str s => .str s

/-- A value of the `int | str` union used by the `id` field of a
server-returned operation. -/
inductive IdValue where
  | int (n : ℤ) : IdValue
  | str (s : String) : IdValue
deriving DecidableEq

/-- How an id renders inside an f-string URL: `str()` of the value. -/
def IdValue.render : IdValue → String
  | .int n => toString n
  | .str s => s

/-- One sampled outcome of the external `faker` library's primitives, together
with the range contracts the library documents.  `tools/fakers.py` wraps
exactly these primitives; quantifying over oracles quantifies over every value
the library may produce. -/
structure FakerOracle where
  /-- `faker.pyfloat(min_value, max_value)`: a float in the closed range. -/
  pyfloat : ℚ → ℚ → ℚ
  pyfloat_ge : ∀ mn mx : ℚ, mn ≤ mx → mn ≤ pyfloat mn mx
  pyfloat_le : ∀ mn mx : ℚ, mn ≤ mx → pyfloat mn mx ≤ mx
  /-- `faker.random_element(xs)` picks the element at some position. -/
  randomIndex : ℕ
  /-- `faker.sentence()`: an arbitrary string. -/
  sentenceSample : String
  /-- `faker.date_between(start_date, end_date)`: some valid calendar date. -/
  dateSample : Date
  dateSample_valid : dateSample.valid = true

/-- `Fake.money(start, end)` from `tools/fakers.py`:
`self.faker.pyfloat(min_value=start, max_value=end)`. -/
def Fake.money (f : FakerOracle) (start stop : ℚ) : ℚ :=
  f.pyfloat start stop

/-- `Fake.money()` called with its default parameters `start=-100, end=100`. -/
def Fake.moneyDefault (f : FakerOracle) : ℚ :=
  Fake.money f (-100) 100

/-- `faker.random_element(xs)`: the element at the sampled position. -/
def randomElement (f : FakerOracle) (xs : List String) : String :=
  xs.getD (f.randomIndex % xs.length) ""

/-- `Fake.category()` from `tools/fakers.py`:
`self.faker.random_element(['food', 'taxi', 'fuel', 'beauty', 'restaurants'])`. -/
def Fake.category (f : FakerOracle) : String :=
  randomElement f ["food", "taxi", "fuel", "beauty", "restaurants"]

/-- `Fake.sentence()` from `tools/fakers.py`: `self.faker.sentence()`. -/
def Fake.sentence (f : FakerOracle) : String :=
  f.sentenceSample

/-- `Fake.date()` from `tools/fakers.py` with its default 30-day window:
`self.faker.date_between(start_date=start, end_date=end)`. -/
def Fake.dateDefault (f : FakerOracle) : Date :=
  f.dateSample

/-- A concrete faker-library outcome: `pyfloat` returns the lower bound,
`random_element` picks position `i`. -/
def sampleFakerAt (i : ℕ) : FakerOracle where
  pyfloat := fun mn _ => mn
  pyfloat_ge := fun _ _ _ => le_refl _
  pyfloat_le := fun _ _ h => h
  randomIndex := i
  sentenceSample := "Lorem ipsum."
  dateSample := ⟨2024, 5, 1⟩
  dateSample_valid := by decide

/-- A concrete faker-library outcome used by the concrete evaluations below. -/
def sampleFaker : FakerOracle :=
  sampleFakerAt 0

/-- `CreateOperationSchema` from `src/schema/operations.py`: the in-memory
value of a create request.  `debit` and `credit` have type `float | str |
None`; `transaction_date` carries the wire alias `transactionDate`. -/
structure CreateOperationSchema where
  debit : Option MoneyValue
  credit : Option MoneyValue
  category : String
  description : String
  transaction_date : Date
deriving DecidableEq

/-- `CreateOperationSchema()` built with no arguments: every field is filled
by its `default_factory` (`fake.money`, `fake.money`, `fake.category`,
`fake.sentence`, `fake.date`), so every field is non-None. -/
def CreateOperationSchema.build (f : FakerOracle) : CreateOperationSchema where
  debit := some (.num (Fake.moneyDefault f))
  credit := some (.num (Fake.moneyDefault f))
  category := Fake.category f
  description := Fake.sentence f
  transaction_date := Fake.dateDefault f

def optMoneyToJson : Option MoneyValue → JsonValue
  | none => .null
  | some v => v.toJson

/-- `model_dump(mode='json', by_alias=True)` on a create request: every field
appears, in declaration order, `None` rendered as JSON null, the date under
its wire alias `transactionDate` as an ISO string. -/
def CreateOperationSchema.model_dump (s : CreateOperationSchema) : JsonValue :=
  .obj [("debit", optMoneyToJson s.debit),
        ("credit", optMoneyToJson s.credit),
        ("category", .str s.category),
        ("description", .str s.description),
        ("transactionDate", .str s.transaction_date.toIso)]

/-- `UpdateOperationSchema` from `src/schema/operations.py`: all five fields
nullable, each with a randomizing `default_factory`. -/
structure UpdateOperationSchema where
  debit : Option MoneyValue
  credit : Option MoneyValue
  category : Option String
  description : Option String
  transaction_date : Option Date
deriving DecidableEq

/-- The keyword arguments of one `UpdateOperationSchema(...)` construction
call: for each field, `none` means the caller left the field unset, and
`some v` means the caller supplied `v` (where `v` may itself be `none`,
i.e. an explicit Python `None`). -/
structure UpdateKwargs where
  debit : Option (Option MoneyValue)
  credit : Option (Option MoneyValue)
  category : Option (Option String)
  description : Option (Option String)
  transaction_date : Option (Option Date)
deriving DecidableEq

/-- `UpdateOperationSchema(**kwargs)`: a supplied field keeps the supplied
value; an unset field is filled by its `default_factory`, all of which
(`fake.money`, `fake.category`, `fake.sentence`, `fake.date`) produce
non-None values. -/
def UpdateOperationSchema.construct (f : FakerOracle) (kw : UpdateKwargs) :
    UpdateOperationSchema where
  debit := kw.debit.getD (some (.num (Fake.moneyDefault f)))
  credit := kw.credit.getD (some (.num (Fake.moneyDefault f)))
  category := kw.category.getD (some (Fake.category f))
  description := kw.description.getD (some (Fake.sentence f))
  transaction_date := kw.transaction_date.getD (some (Fake.dateDefault f))

/-- The construction call with no keyword arguments. -/
def UpdateKwargs.allUnset : UpdateKwargs :=
  ⟨none, none, none, none, none⟩

/-- `UpdateOperationSchema()` built with no arguments. -/
def UpdateOperationSchema.build (f : FakerOracle) : UpdateOperationSchema :=
  UpdateOperationSchema.construct f UpdateKwargs.allUnset

/-- One object entry when the optional value is present, nothing otherwise. -/
def optEntry (key : String) : Option JsonValue → List (String × JsonValue)
  | none => []
  | some v => [(key, v)]

/-- `model_dump(mode='json', by_alias=True, exclude_none=True)` on an update
request: a field appears, under its wire alias, exactly when its value is not
`None`. -/
def UpdateOperationSchema.model_dump (s : UpdateOperationSchema) : JsonValue :=
  .obj (optEntry "debit" (s.debit.map MoneyValue.toJson)
     ++ optEntry "credit" (s.credit.map MoneyValue.toJson)
     ++ optEntry "category" (s.category.map JsonValue.str)
     ++ optEntry "description" (s.description.map JsonValue.str)
     ++ optEntry "transactionDate" (s.transaction_date.map (fun d => JsonValue.str d.toIso)))

/-- `OperationSchema` from `src/schema/operations.py`: a server-returned
operation; extends the create fields with a required `id : int | str`. -/
structure OperationSchema extends CreateOperationSchema where
  id : IdValue
deriving DecidableEq

/-- Validate the required `id : int | str` field: missing and JSON null are
rejected; an integral JSON number becomes an int, a JSON string stays a
string. -/
def validateId : Option JsonValue → Except String IdValue
  | none => .error "id: field required"
  | some (.num q) =>
      if q.den = 1 then .ok (.int q.num) else .error "id: not an int or str"
  | some (.str s) => .ok (.str s)
  | some _ => .error "id: not an int or str"

/-- Validate a `float | str | None` field with a defaulted factory: missing
uses the default, null is `None`, numbers and strings pass, anything else is
rejected. -/
def validateMoneyField (dflt : Option MoneyValue) :
    Option JsonValue → Except String (Option MoneyValue)
  | none => .ok dflt
  | some .null => .ok none
  | some (.num q) => .ok (some (.num q))
  | some (.str s) => .ok (some (.str s))
  | some _ => .error "money: not a float, str or null"

/-- Validate a required `str` field with a defaulted factory: missing uses
the default, only a JSON string passes (pydantic v2 does not coerce numbers
or null to `str`). -/
def validateStrField (dflt : String) :
    Option JsonValue → Except String String
  | none => .ok dflt
  | some (.str s) => .ok s
  | some _ => .error "str: not a string"

/-- Validate a `date` field with a defaulted factory: missing uses the
default, a JSON string must parse as an ISO `YYYY-MM-DD` date. -/
def validateDateField (dflt : Date) :
    Option JsonValue → Except String Date
  | none => .ok dflt
  | some (.str s) =>
      match parseIsoDate s with
      | some d => .ok d
      | none => .error "date: invalid ISO date"
  | some _ => .error "date: not a date string"

/-- Look a field up by its wire alias first, then (because of
`populate_by_name=True`) by its in-memory name. -/
def lookupAliased (fields : List (String × JsonValue)) (aliasKey fieldName : String) :
    Option JsonValue :=
  (fields.lookup aliasKey).orElse (fun _ => fields.lookup fieldName)

/-- `OperationSchema.model_validate` on an already-parsed JSON document:
the document must be an object; `id` is required and non-null; the create
fields validate with their randomized defaults filling anything missing;
extra keys are ignored. -/
def OperationSchema.model_validate (f : FakerOracle) (j : JsonValue) :
    Except String OperationSchema :=
  match j with
  | .obj fields => do
      let id ← validateId (fields.lookup "id")
      let debit ← validateMoneyField (some (.num (Fake.moneyDefault f)))
        (fields.lookup "debit")
      let credit ← validateMoneyField (some (.num (Fake.moneyDefault f)))
        (fields.lookup "credit")
      let category ← validateStrField (Fake.category f) (fields.lookup "category")
      let description ← validateStrField (Fake.sentence f) (fields.lookup "description")
      let transaction_date ← validateDateField (Fake.dateDefault f)
        (lookupAliased fields "transactionDate" "transaction_date")
      .ok { debit, credit, category, description, transaction_date, id }
  | _ => .error "not an object"

/-- `OperationSchema.model_validate_json(text)`: the response text's JSON
parse (`none` when the text is not valid JSON) fed into `model_validate`. -/
def OperationSchema.model_validate_json (f : FakerOracle) :
    Option JsonValue → Except String OperationSchema
  | none => .error "invalid JSON"
  | some j => OperationSchema.model_validate f j

/-- `APIRoutes` from `src/tools/routes.py`: the five logical resource names. -/
inductive APIRoutes where
  | CARDS : APIRoutes
  | CLIENTS : APIRoutes
  | OPERATIONS : APIRoutes
  | STATEMENTS : APIRoutes
  | NOTIFICATIONS : APIRoutes
deriving DecidableEq

/-- The enum member's `value`: the fixed URL path segment of each resource. -/
def APIRoutes.value : APIRoutes → String
  | .CARDS => "/fakebank/cards"
  | .CLIENTS => "/fakebank/clients"
  | .OPERATIONS => "/fakebank/accounts"
  | .STATEMENTS => "/fakebank/statements"
  | .NOTIFICATIONS => "/fakebank/notifications"

/-- `APIRoutes.__str__`: `return self.value`, so a route interpolates into an
f-string as its plain path string. -/
def APIRoutes.strOf (r : APIRoutes) : String :=
  r.value

/-- HTTP methods used by the base client. -/
inductive Method where
  | GET : Method
  | POST : Method
  | PATCH : Method
  | DELETE : Method
deriving DecidableEq

/-- One outgoing HTTP request as the base client hands it to httpx: method,
relative URL, and the JSON body when one is passed. -/
structure HttpRequest where
  method : Method
  url : String
  body : Option JsonValue

/-- One HTTP response as the backend returns it: status code and the JSON
parse of the response text (`none` when the text is not valid JSON). -/
structure Response where
  status_code : ℤ
  textJson : Option JsonValue

/-- The backend, an external collaborator: which response each request gets. -/
def Env : Type :=
  HttpRequest → Response

/-- The same backend with every status code overwritten by `code`; used to
state that a computation never inspects status codes. -/
def setStatus (env : Env) (code : ℤ) : Env :=
  fun r => { env r with status_code := code }

/-- The request issued by `OperationsClient.get_operations_api`:
`self.get(APIRoutes.OPERATIONS)`. -/
def OperationsClient.get_operations_api_request : HttpRequest :=
  { method := .GET, url := APIRoutes.strOf .OPERATIONS, body := none }

/-- The request issued by `OperationsClient.get_operation_api(operation_id)`:
`GET f"{APIRoutes.OPERATIONS}/{operation_id}"`. -/
def OperationsClient.get_operation_api_request (operation_id : IdValue) : HttpRequest :=
  { method := .GET,
    url := APIRoutes.strOf .OPERATIONS ++ "/" ++ operation_id.render,
    body := none }

/-- The request issued by `OperationsClient.create_operation_api(operation)`:
`POST APIRoutes.OPERATIONS` with body
`operation.model_dump(mode='json', by_alias=True)`. -/
def OperationsClient.create_operation_api_request (operation : CreateOperationSchema) :
    HttpRequest :=
  { method := .POST,
    url := APIRoutes.strOf .OPERATIONS,
    body := some operation.model_dump }

/-- The request issued by
`OperationsClient.update_operation_api(operation_id, operation)`:
`PATCH f"{APIRoutes.OPERATIONS}/{operation_id}"` with body
`operation.model_dump(mode='json', by_alias=True, exclude_none=True)`. -/
def OperationsClient.update_operation_api_request
    (operation_id : IdValue) (operation : UpdateOperationSchema) : HttpRequest :=
  { method := .PATCH,
    url := APIRoutes.strOf .OPERATIONS ++ "/" ++ operation_id.render,
    body := some operation.model_dump }

/-- The request issued by `OperationsClient.delete_operation_api(operation_id)`:
`DELETE f"{APIRoutes.OPERATIONS}/{operation_id}"`. -/
def OperationsClient.delete_operation_api_request (operation_id : IdValue) : HttpRequest :=
  { method := .DELETE,
    url := APIRoutes.strOf .OPERATIONS ++ "/" ++ operation_id.render,
    body := none }

/-- `create_operation_api` returns the backend's raw response to its request. -/
def OperationsClient.create_operation_api (env : Env) (operation : CreateOperationSchema) :
    Response :=
  env (OperationsClient.create_operation_api_request operation)

/-- `update_operation_api` returns the backend's raw response to its request. -/
def OperationsClient.update_operation_api (env : Env)
    (operation_id : IdValue) (operation : UpdateOperationSchema) : Response :=
  env (OperationsClient.update_operation_api_request operation_id operation)

/-- `OperationsClient.create_operation`: build `CreateOperationSchema()` with
all-randomized defaults, post it via `create_operation_api`, and parse the
response text with `OperationSchema.model_validate_json` — no status-code
check; a body that does not validate surfaces as the parse error. -/
def OperationsClient.create_operation (f : FakerOracle) (env : Env) :
    Except String OperationSchema :=
  let request := CreateOperationSchema.build f
  let response := OperationsClient.create_operation_api env request
  OperationSchema.model_validate_json f response.textJson

/-- The observable outcome of `assert_status_code`: the log lines it emitted
and either normal return or the `AssertionError` message it raised. -/
structure AssertOutcome where
  logLines : List String
  result : Except String Unit

/-- `assert_status_code(actual, expected)` from `src/tools/assertions/base.py`:
log a check line, then `assert actual == expected` with a message naming the
expected and the actual code. -/
def assert_status_code (actual expected : ℤ) : AssertOutcome where
  logLines := ["Check that response status code equals to " ++ toString expected]
  result :=
    if actual = expected then .ok ()
    else .error ("Incorrect response status code. Expected status code: "
      ++ toString expected ++ ". Actual status code: " ++ toString actual)

/-- Whether the test body using the fixture passed or failed. -/
inductive TestOutcome where
  | passed : TestOutcome
  | failed : TestOutcome

/-- The observable events of one run of the `function_operation` fixture. -/
inductive FixtureEvent where
  | request (r : HttpRequest) : FixtureEvent
  | handToTest (op : OperationSchema) : FixtureEvent
  | testBody (outcome : TestOutcome) : FixtureEvent

/-- One run of the `function_operation` yield fixture from
`src/fixtures/operations.py`, under pytest's yield-fixture contract: the code
before `yield` runs as setup; when setup succeeds the operation is handed to
the test, the test body runs to its outcome, and the code after `yield` runs
as teardown whether the body passed or failed.  Setup issues
`create_operation`; teardown issues `delete_operation_api(operation.id)`.
When setup itself raises (the create response fails to parse) the test body
never runs and there is nothing to delete. -/
def function_operation (f : FakerOracle) (env : Env) (outcome : TestOutcome) :
    List FixtureEvent :=
  let createReq := OperationsClient.create_operation_api_request (CreateOperationSchema.build f)
  match OperationsClient.create_operation f env with
  | .error _ => [.request createReq]
  | .ok operation =>
      [.request createReq,
       .handToTest operation,
       .testBody outcome,
       .request (OperationsClient.delete_operation_api_request operation.id)]

/-- A concrete server response body: a full operation document with id 1. -/
def sampleDoc : JsonValue :=
  .obj [("id", .num 1),
        ("debit", .num (-425/10)),
        ("credit", .null),
        ("category", .str "taxi"),
        ("description", .str "cab ride"),
        ("transactionDate", .str "2024-05-01")]

/-- A backend that answers every request with status 201 and `sampleDoc`. -/
def sampleEnv : Env :=
  fun _ => { status_code := 201, textJson := some sampleDoc }

/-- The operation `sampleDoc` validates to. -/
def sampleOperation : OperationSchema where
  debit := some (.num (-425/10))
  credit := none
  category := "taxi"
  description := "cab ride"
  transaction_date := ⟨2024, 5, 1⟩
  id := .int 1

/-- C4: for every `CreateOperationSchema` request, `create_operation_api`
issues a POST to the operations route whose JSON body carries every one of
the five fields — `debit`, `credit`, `category` and `description` under
their in-memory names, `transaction_date` under its wire alias
`transactionDate` — omitting none (a `None` value is sent as JSON null). -/
theorem create_operation_api_spec (env : Env) (op : CreateOperationSchema) :
    (OperationsClient.create_operation_api_request op).method = .POST ∧
    (OperationsClient.create_operation_api_request op).url = "/fakebank/accounts" ∧
    (OperationsClient.create_operation_api_request op).body = some (.obj
      [("debit", optMoneyToJson op.debit),
       ("credit", optMoneyToJson op.credit),
       ("category", .str op.category),
       ("description", .str op.description),
       ("transactionDate", .str op.transaction_date.toIso)]) ∧
    jsonKeys (CreateOperationSchema.model_dump op) =
      ["debit", "credit", "category", "description", "transactionDate"] ∧
    OperationsClient.create_operation_api env op =
      env (OperationsClient.create_operation_api_request op) :=
  ⟨rfl, rfl, rfl, rfl, rfl⟩

/-- C1 counterexample: in the construction call `UpdateOperationSchema()`
every field, `debit` among them, is left unset, yet the payload
`update_operation_api` would send for the resulting request still contains
the key `"debit"` — an unset field is filled by its randomizing
`default_factory` and sent, so the payload does not omit exactly the unset
fields. -/
theorem update_unset_field_included :
    UpdateKwargs.allUnset.debit = none ∧
    "debit" ∈ jsonKeys (UpdateOperationSchema.model_dump
      (UpdateOperationSchema.construct sampleFaker UpdateKwargs.allUnset)) := by
  refine ⟨rfl, ?_⟩
  simp [UpdateOperationSchema.construct, UpdateKwargs.allUnset,
        UpdateOperationSchema.model_dump, jsonKeys, optEntry]

/-- C1 (amended): `update_operation_api` sends the request serialized with
wire aliases (`transaction_date` rendered as `transactionDate`) as the PATCH
body, omitting exactly those fields whose value is `None`; a field left
unset at construction is filled by its randomizing non-None
`default_factory`, so only fields explicitly set to `None` are omitted. -/
theorem update_operation_api_spec (operation_id : IdValue) (op : UpdateOperationSchema) :
    (OperationsClient.update_operation_api_request operation_id op).method = .PATCH ∧
    (OperationsClient.update_operation_api_request operation_id op).url =
      "/fakebank/accounts/" ++ operation_id.render ∧
    (OperationsClient.update_operation_api_request operation_id op).body =
      some op.model_dump ∧
    (∀ env : Env, OperationsClient.update_operation_api env operation_id op =
      env (OperationsClient.update_operation_api_request operation_id op)) ∧
    ("debit" ∈ jsonKeys op.model_dump ↔ op.debit ≠ none) ∧
    ("credit" ∈ jsonKeys op.model_dump ↔ op.credit ≠ none) ∧
    ("category" ∈ jsonKeys op.model_dump ↔ op.category ≠ none) ∧
    ("description" ∈ jsonKeys op.model_dump ↔ op.description ≠ none) ∧
    ("transactionDate" ∈ jsonKeys op.model_dump ↔ op.transaction_date ≠ none) ∧
    "transaction_date" ∉ jsonKeys op.model_dump := by
  obtain ⟨d, c, cat, desc, td⟩ := op
  refine ⟨rfl, rfl, rfl, fun _ => rfl, ?_⟩
  cases d <;> cases c <;> cases cat <;> cases desc <;> cases td <;>
    simp [UpdateOperationSchema.model_dump, jsonKeys, optEntry]

/-- C5: `UpdateOperationSchema()` built with no arguments has all five fields
populated with non-None randomized values, so the PATCH payload
`update_operation_api` produces from it contains all five wire keys — a
default-built update is never partial. -/
theorem update_default_all_set (f : FakerOracle) (operation_id : IdValue) :
    (UpdateOperationSchema.build f).debit.isSome = true ∧
    (UpdateOperationSchema.build f).credit.isSome = true ∧
    (UpdateOperationSchema.build f).category.isSome = true ∧
    (UpdateOperationSchema.build f).description.isSome = true ∧
    (UpdateOperationSchema.build f).transaction_date.isSome = true ∧
    (OperationsClient.update_operation_api_request operation_id
        (UpdateOperationSchema.build f)).body =
      some (UpdateOperationSchema.build f).model_dump ∧
    jsonKeys (UpdateOperationSchema.build f).model_dump =
      ["debit", "credit", "category", "description", "transactionDate"] :=
  ⟨rfl, rfl, rfl, rfl, rfl, rfl, rfl⟩

/-- C2: `create_operation` builds a fully-randomized default
`CreateOperationSchema`, posts it via `create_operation_api`, and returns the
response body parsed as an `OperationSchema`; it never inspects the status
code (overwriting every status code leaves the result unchanged), and a body
that does not validate surfaces as the parse error, propagated unchanged to
the caller. -/
theorem create_operation_spec (f : FakerOracle) (env : Env) (code : ℤ) :
    OperationsClient.create_operation f env =
      OperationSchema.model_validate_json f
        (env (OperationsClient.create_operation_api_request
          (CreateOperationSchema.build f))).textJson ∧
    OperationsClient.create_operation f (setStatus env code) =
      OperationsClient.create_operation f env ∧
    (∀ e : String,
      OperationSchema.model_validate_json f
        (env (OperationsClient.create_operation_api_request
          (CreateOperationSchema.build f))).textJson = .error e →
      OperationsClient.create_operation f env = .error e) :=
  ⟨rfl, rfl, fun _ h => h⟩

/-- C3: validating a JSON document as an `OperationSchema` succeeds only when
the document is an object whose `id` key is present and non-null, so every
successfully parsed server-returned operation has a non-null id. -/
theorem operation_validate_requires_id (f : FakerOracle) (j : JsonValue)
    (op : OperationSchema)
    (h : OperationSchema.model_validate f j = .ok op) :
    ∃ fields, j = .obj fields ∧
      ∃ v, fields.lookup "id" = some v ∧ v ≠ JsonValue.null := by
  cases j with
  | obj fields =>
    refine ⟨fields, rfl, ?_⟩
    rcases hl : fields.lookup "id" with _ | v
    · simp [OperationSchema.model_validate, hl, validateId, Bind.bind, Except.bind] at h
    · cases v with
      | null => simp [OperationSchema.model_validate, hl, validateId, Bind.bind, Except.bind] at h
      | bool b => simp [OperationSchema.model_validate, hl, validateId, Bind.bind, Except.bind] at h
      | num q => exact ⟨.num q, rfl, by simp⟩
      | str s => exact ⟨.str s, rfl, by simp⟩
      | arr elems => simp [OperationSchema.model_validate, hl, validateId, Bind.bind, Except.bind] at h
      | obj fs => simp [OperationSchema.model_validate, hl, validateId, Bind.bind, Except.bind] at h
  | null => simp [OperationSchema.model_validate] at h
  | bool b => simp [OperationSchema.model_validate] at h
  | num q => simp [OperationSchema.model_validate] at h
  | str s => simp [OperationSchema.model_validate] at h
  | arr elems => simp [OperationSchema.model_validate] at h

/-- C3 witness: `sampleDoc` validates (under the sampled faker outcome), and
indeed carries a non-null `id`. -/
theorem operation_validate_requires_id_witness :
    ∃ fields, sampleDoc = .obj fields ∧
      ∃ v, fields.lookup "id" = some v ∧ v ≠ JsonValue.null :=
  operation_validate_requires_id sampleFaker sampleDoc sampleOperation (by rfl)

/-- C6: one run of the `function_operation` fixture whose setup succeeds with
operation `op` creates it via `create_operation` before the test body runs,
hands exactly `op` to the test, and after the body completes — whichever its
outcome — issues the DELETE request for `op`'s identifier, so every created
fixture operation has a matching delete issued. -/
theorem function_operation_spec (f : FakerOracle) (env : Env)
    (outcome : TestOutcome) (op : OperationSchema)
    (h : OperationsClient.create_operation f env = .ok op) :
    function_operation f env outcome =
      [.request (OperationsClient.create_operation_api_request
         (CreateOperationSchema.build f)),
       .handToTest op,
       .testBody outcome,
       .request (OperationsClient.delete_operation_api_request op.id)] := by
  unfold function_operation
  rw [h]

/-- C6 witness: against the sample backend the fixture's run is concretely
the create request, the hand-off of `sampleOperation`, the (failed) test
body, and the delete of `sampleOperation`'s id. -/
theorem function_operation_spec_witness :
    function_operation sampleFaker sampleEnv .failed =
      [.request (OperationsClient.create_operation_api_request
         (CreateOperationSchema.build sampleFaker)),
       .handToTest sampleOperation,
       .testBody .failed,
       .request (OperationsClient.delete_operation_api_request sampleOperation.id)] :=
  function_operation_spec sampleFaker sampleEnv .failed sampleOperation (by rfl)

/-- C7: the route table totally maps the five logical resource names to their
fixed path strings with no failure mode, `OPERATIONS` to
`"/fakebank/accounts"`, a route interpolating as its plain string; hence the
operations client issues `"/fakebank/accounts"` for list and create and
`"/fakebank/accounts/{id}"` for get, update and delete by id. -/
theorem api_routes_spec (operation_id : IdValue) :
    APIRoutes.value .CARDS = "/fakebank/cards" ∧
    APIRoutes.value .CLIENTS = "/fakebank/clients" ∧
    APIRoutes.value .OPERATIONS = "/fakebank/accounts" ∧
    APIRoutes.value .STATEMENTS = "/fakebank/statements" ∧
    APIRoutes.value .NOTIFICATIONS = "/fakebank/notifications" ∧
    (∀ r : APIRoutes, APIRoutes.strOf r = APIRoutes.value r) ∧
    OperationsClient.get_operations_api_request.method = .GET ∧
    OperationsClient.get_operations_api_request.url = "/fakebank/accounts" ∧
    (∀ op : CreateOperationSchema,
      (OperationsClient.create_operation_api_request op).method = .POST ∧
      (OperationsClient.create_operation_api_request op).url = "/fakebank/accounts") ∧
    (OperationsClient.get_operation_api_request operation_id).method = .GET ∧
    (OperationsClient.get_operation_api_request operation_id).url =
      "/fakebank/accounts/" ++ operation_id.render ∧
    (∀ op : UpdateOperationSchema,
      (OperationsClient.update_operation_api_request operation_id op).method = .PATCH ∧
      (OperationsClient.update_operation_api_request operation_id op).url =
        "/fakebank/accounts/" ++ operation_id.render) ∧
    (OperationsClient.delete_operation_api_request operation_id).method = .DELETE ∧
    (OperationsClient.delete_operation_api_request operation_id).url =
      "/fakebank/accounts/" ++ operation_id.render :=
  ⟨rfl, rfl, rfl, rfl, rfl, fun _ => rfl, rfl, rfl, fun _ => ⟨rfl, rfl⟩,
   rfl, rfl, fun _ => ⟨rfl, rfl⟩, rfl, rfl⟩

/-- C8: `assert_status_code` raises an assertion failure exactly when the
actual status code differs from the expected one; the failure message names
both the expected and the actual value, and one log line is emitted in the
matching and in the mismatching case alike. -/
theorem assert_status_code_spec (actual expected : ℤ) :
    ((∃ msg, (assert_status_code actual expected).result = .error msg) ↔
      actual ≠ expected) ∧
    (assert_status_code actual expected).result =
      (if actual = expected then .ok () else
        .error ("Incorrect response status code. Expected status code: "
          ++ toString expected ++ ". Actual status code: " ++ toString actual)) ∧
    (assert_status_code actual expected).logLines =
      ["Check that response status code equals to " ++ toString expected] := by
  refine ⟨?_, rfl, rfl⟩
  constructor
  · rintro ⟨msg, hm⟩ he
    simp [assert_status_code, he] at hm
  · intro hne
    exact ⟨"Incorrect response status code. Expected status code: "
      ++ toString expected ++ ". Actual status code: " ++ toString actual,
      by simp [assert_status_code, hne]⟩

/-- C9: every value the fake-data generator's `money` function returns with
its default parameters lies in the closed interval `[-100, 100]`. -/
theorem fake_money_default_range (f : FakerOracle) :
    -100 ≤ Fake.moneyDefault f ∧ Fake.moneyDefault f ≤ 100 :=
  ⟨f.pyfloat_ge (-100) 100 (by norm_num), f.pyfloat_le (-100) 100 (by norm_num)⟩

/-- C10: every value the fake-data generator's `category` function returns is
a member of the fixed five-element set {food, taxi, fuel, beauty,
restaurants}, and the draw ranges over the whole set: each of the five
categories is produced by some outcome of the underlying uniform
`random_element` draw. -/
theorem fake_category_spec (f : FakerOracle) :
    Fake.category f ∈ ["food", "taxi", "fuel", "beauty", "restaurants"] ∧
    Fake.category (sampleFakerAt 0) = "food" ∧
    Fake.category (sampleFakerAt 1) = "taxi" ∧
    Fake.category (sampleFakerAt 2) = "fuel" ∧
    Fake.category (sampleFakerAt 3) = "beauty" ∧
    Fake.category (sampleFakerAt 4) = "restaurants" := by
  refine ⟨?_, rfl, rfl, rfl, rfl, rfl⟩
  have h5 : f.randomIndex % 5 < 5 := Nat.mod_lt _ (by norm_num)
  unfold Fake.category randomElement
  simp only [List.length_cons, List.length_nil]
  set k := f.randomIndex % 5 with hk
  interval_cases k <;> simp
